import Mathlib

/-!
Shallow embedding of `src/circuitbreaker.ts` (class `CircuitBreaker`).

JavaScript numbers are modelled as `Int` (all values arising here are integral:
epoch-millisecond timestamps, counters and configuration values); the one real
division in the source, `getFailRate`, is modelled over `ℚ`.  A JavaScript
value that may be `undefined` is modelled as an `Option`; comparing a number
against `undefined` with `<`, `>`, `>=` yields `false` in JavaScript, which the
`jsLt`/`jsGt`/`jsGe` helpers reproduce.  `Date.now()` is passed in explicitly:
`fire` receives the instant of its admission check (`nowA`) and the instant at
which the outcome handler runs after the awaited request settles (`nowH`);
consecutive synchronous reads inside one handler are idealised to one instant.
The guarded operation (`this.request`) is a parameter: a function from the
argument list it is invoked with to the outcome of its promise.
-/

namespace CBDemo

/-- A JavaScript value, as far as the breaker's call surface needs: `fire`'s
rest arguments and what `this.request` receives. -/
inductive JsVal where
  | num (n : Int)
  | str (s : String)
  | arr (elems : List JsVal)

/-- The `Options` type of the source: every field optional (`undefined` when
omitted). -/
structure Options where
  halfTimeout : Option Int
  openTimeout : Option Int
  minFailed : Option Int
  percentFailed : Option Int
deriving DecidableEq

/-- `Required<Options>`: the resolved `this.options` record. -/
structure ROptions where
  halfTimeout : Int
  openTimeout : Int
  minFailed : Int
  percentFailed : Int
deriving DecidableEq

/-- The JavaScript expression `x || d` for a possibly-undefined number `x`:
`undefined` and the falsy number `0` both yield the default `d`. -/
def jsOrDefault (x : Option Int) (d : Int) : Int :=
  match x with
  | none => d
  | some v => if v = 0 then d else v

/-- The constructor's option resolution:
`{ halfTimeout: opts?.halfTimeout || 10000, openTimeout: opts?.openTimeout || 5000,
   minFailed: opts?.minFailed || 15, percentFailed: opts?.percentFailed || 50 }`. -/
def resolveOptions (opts : Option Options) : ROptions :=
  { halfTimeout := jsOrDefault (opts.bind Options.halfTimeout) 10000
    openTimeout := jsOrDefault (opts.bind Options.openTimeout) 5000
    minFailed := jsOrDefault (opts.bind Options.minFailed) 15
    percentFailed := jsOrDefault (opts.bind Options.percentFailed) 50 }

/-- The `State` enum. -/
inductive State where
  | OPENED
  | CLOSED
  | HALF
deriving DecidableEq

/-- The mutable fields of a `CircuitBreaker` instance (the guarded operation
`request` is kept outside the state: it is immutable and only consulted by
`fire`). -/
structure CB where
  options : ROptions
  state : State
  openDateEnd : Option Int
  halfDateEnd : Option Int
  failCount : Int
  successCount : Int
deriving DecidableEq

/-- The constructor: field initialisers plus option resolution. -/
def mkCB (opts : Option Options) : CB :=
  { options := resolveOptions opts
    state := State.CLOSED
    openDateEnd := none
    halfDateEnd := none
    failCount := 0
    successCount := 0 }

/-- JavaScript `a < b` where `b` may be `undefined` (comparison with
`undefined` is `false`). -/
def jsLt (a : Int) (b : Option Int) : Bool :=
  match b with
  | none => false
  | some b => a < b

/-- JavaScript `a > b` where `b` may be `undefined`. -/
def jsGt (a : Int) (b : Option Int) : Bool :=
  match b with
  | none => false
  | some b => a > b

/-- JavaScript `a >= b` where `b` may be `undefined`. -/
def jsGe (a : Int) (b : Option Int) : Bool :=
  match b with
  | none => false
  | some b => a ≥ b

/-- The record produced by `getInfo`: `new Date(x || 0)` is the epoch
millisecond value `x`, or `0` when the field is `undefined`. -/
structure Info where
  state : State
  openDateEnd : Int
  halfDateEnd : Int
deriving DecidableEq

/-- `getInfo()`. -/
def getInfo (cb : CB) : Info :=
  { state := cb.state
    openDateEnd := (cb.openDateEnd.getD 0)
    halfDateEnd := (cb.halfDateEnd.getD 0) }

/-- `reset()`: zero both counters and clear `halfDateEnd`. -/
def reset (cb : CB) : CB :=
  { cb with successCount := 0, failCount := 0, halfDateEnd := none }

/-- `setOpenDate()`: `openDateEnd = Date.now() + options.openTimeout`. -/
def setOpenDate (now : Int) (cb : CB) : CB :=
  { cb with openDateEnd := some (now + cb.options.openTimeout) }

/-- `setHalfDate()`: `halfDateEnd = Date.now() + options.halfTimeout`. -/
def setHalfDate (now : Int) (cb : CB) : CB :=
  { cb with halfDateEnd := some (now + cb.options.halfTimeout) }

/-- `getFailRate()`: `failCount * 100 / (failCount + successCount)`, real
division (only ever evaluated with `failCount ≥ 1`, so the denominator is
positive at every call site). -/
def getFailRate (cb : CB) : ℚ :=
  (cb.failCount : ℚ) * 100 / ((cb.failCount : ℚ) + (cb.successCount : ℚ))

/-- Body of `case State.HALF:` in `success` (the `switch` has no `break`, so
execution continues into the next case). -/
def successHalfCase (now : Int) (cb : CB) : CB :=
  let cb := { cb with successCount := cb.successCount + 1 }
  if jsGe now cb.halfDateEnd then reset { cb with state := State.CLOSED } else cb

/-- Body of `case State.OPENED:` in `success` (falls through into the CLOSED
case as well). -/
def successOpenedCase (now : Int) (cb : CB) : CB :=
  setHalfDate now { cb with successCount := 1, state := State.HALF }

/-- Body of `case State.CLOSED:` in `success`. -/
def successClosedCase (cb : CB) : CB :=
  { cb with successCount := cb.successCount + 1 }

/-- `success(response)`: the `switch (this.state)` selects the entry case from
the state at entry and then, lacking `break` statements, falls through all the
later cases.  The `response` argument is returned unchanged, so only the state
update is modelled here. -/
def success (now : Int) (cb : CB) : CB :=
  match cb.state with
  | State.HALF => successClosedCase (successOpenedCase now (successHalfCase now cb))
  | State.OPENED => successClosedCase (successOpenedCase now cb)
  | State.CLOSED => successClosedCase cb

/-- What `fail(e, args)` returns: its argument `e` (each branch that ends in
`return e`), or `undefined` when control falls off the end of the function
(the `State.HALF` case with neither `if` taken has no `return`). -/
inductive FailRet where
  | wrapper
  | undef
deriving DecidableEq

/-- `fail(e, args)`: updated state paired with what is returned. -/
def fail (now : Int) (cb : CB) : CB × FailRet :=
  match cb.state with
  | State.OPENED => (setOpenDate now cb, FailRet.wrapper)
  | State.CLOSED =>
      (setHalfDate now { cb with failCount := 1, state := State.HALF }, FailRet.wrapper)
  | State.HALF =>
      let cb := { cb with failCount := cb.failCount + 1 }
      if jsGt now cb.halfDateEnd then
        (setHalfDate now { reset cb with failCount := 1 }, FailRet.wrapper)
      else if cb.failCount ≥ cb.options.minFailed then
        if getFailRate cb ≥ (cb.options.percentFailed : ℚ) then
          (setOpenDate now (reset { cb with state := State.OPENED }), FailRet.wrapper)
        else
          (setHalfDate now { reset cb with failCount := 1 }, FailRet.wrapper)
      else (cb, FailRet.undef)

/-- Outcome of awaiting the guarded operation's promise: resolved with a value
or rejected/thrown with a failure value. -/
inductive Outcome (α ε : Type) where
  | success (a : α)
  | failure (e : ε)

/-- The object literal `{ response: ..., ...this.getInfo() }` built in `fire`
before `success`/`fail` run (argument evaluation precedes the call, so the
info fields are those of the pre-update state). -/
structure RespWrapper (α : Type) where
  response : α
  info : Info
deriving DecidableEq

/-- How one `fire` call settles: the thrown `Error('The circuit is open')`
rejection, resolution with the success wrapper, resolution with the failure
wrapper, or resolution with `undefined` (when `fail` returns nothing). -/
inductive FireOutcome (α ε : Type) where
  | threwOpen (msg : String)
  | resolvedSuccess (w : RespWrapper α)
  | resolvedFail (w : RespWrapper ε)
  | resolvedUndefined
deriving DecidableEq

/-- Observable effect of one `fire(...args)` call: the breaker state after the
call, how the returned promise settled, and the argument list the guarded
operation was invoked with (`none` when it was never invoked). -/
structure FireStep (α ε : Type) where
  cb' : CB
  result : FireOutcome α ε
  invokedWith : Option (List JsVal)

/-- `fire(...args)`: reject while OPENED before `openDateEnd`; otherwise run
`this.request(args)` — note the call passes the rest-argument array `args` as
one single argument — and feed the outcome to `success`/`fail`.  `req` maps
the argument list the guarded operation receives to its settled outcome. -/
def fire {α ε : Type} (req : List JsVal → Outcome α ε) (nowA nowH : Int)
    (cb : CB) (args : List JsVal) : FireStep α ε :=
  if cb.state = State.OPENED ∧ jsLt nowA cb.openDateEnd = true then
    { cb' := cb, result := FireOutcome.threwOpen "The circuit is open", invokedWith := none }
  else
    let received := [JsVal.arr args]
    match req received with
    | Outcome.success a =>
        { cb' := success nowH cb
          result := FireOutcome.resolvedSuccess { response := a, info := getInfo cb }
          invokedWith := some received }
    | Outcome.failure e =>
        let r := fail nowH cb
        { cb' := r.1
          result := match r.2 with
            | FailRet.wrapper => FireOutcome.resolvedFail { response := e, info := getInfo cb }
            | FailRet.undef => FireOutcome.resolvedUndefined
          invokedWith := some received }

/-- One queued `fire` call: the guarded operation's behaviour, the admission
and handler instants, and the arguments. -/
structure FireCall (α ε : Type) where
  req : List JsVal → Outcome α ε
  nowA : Int
  nowH : Int
  args : List JsVal

/-- Run a sequence of `fire` calls, threading the breaker state. -/
def fireSeq {α ε : Type} (calls : List (FireCall α ε)) (cb : CB) :
    CB × List (FireStep α ε) :=
  match calls with
  | [] => (cb, [])
  | c :: rest =>
      let s := fire c.req c.nowA c.nowH cb c.args
      let p := fireSeq rest s.cb'
      (p.1, s :: p.2)

/-- Breaker states reachable from construction through outcome reports.  The
state component of `fire` is the identity (rejected call), `success nowH`, or
`(fail nowH ·).1`, independently of the payload types, so these three
constructors cover every `fire`-reachable state. -/
inductive Reachable : CB → Prop where
  | init (opts : Option Options) : Reachable (mkCB opts)
  | stepSucc (now : Int) {cb : CB} : Reachable cb → Reachable (success now cb)
  | stepFail (now : Int) {cb : CB} : Reachable cb → Reachable (fail now cb).1

/-! Helper lemmas shared by the claim theorems. -/

/-- An OPENED breaker before its `openDateEnd` rejects: `fire` throws the
`'The circuit is open'` error, does not invoke the guarded operation and
leaves the breaker untouched. -/
theorem fire_blocked {α ε : Type} (req : List JsVal → Outcome α ε) (nowA nowH : Int)
    (cb : CB) (args : List JsVal) (d : Int)
    (hs : cb.state = State.OPENED) (hd : cb.openDateEnd = some d) (hlt : nowA < d) :
    fire req nowA nowH cb args =
      { cb' := cb, result := FireOutcome.threwOpen "The circuit is open",
        invokedWith := none } := by
  unfold fire
  rw [if_pos ⟨hs, by simp [jsLt, hd, hlt]⟩]

/-- `success` never leaves the breaker OPENED: every fall-through path either
keeps CLOSED or ends by setting the state to HALF. -/
theorem success_state_ne_opened (now : Int) (cb : CB) :
    (success now cb).state ≠ State.OPENED := by
  unfold success
  cases h : cb.state <;>
    simp [h, successClosedCase, successOpenedCase, successHalfCase, setHalfDate, reset]

/-- `fail` does not change the configuration record. -/
theorem fail_options (now : Int) (cb : CB) : (fail now cb).1.options = cb.options := by
  obtain ⟨opts, st, od, hd, fc, sc⟩ := cb
  cases st
  case OPENED => rfl
  case CLOSED => rfl
  case HALF =>
    dsimp only [fail]
    split
    · rfl
    · split
      · split
        · rfl
        · rfl
      · rfl

/-- A stub guarded operation that always resolves. -/
def reqU : List JsVal → Outcome Unit Unit := fun _ => Outcome.success ()

/-- A stub guarded operation that always rejects with the string payload
`"boom"`. -/
def reqBoom : List JsVal → Outcome Unit String := fun _ => Outcome.failure "boom"

/-- A default-configured breaker after one failure reported at `t = 0`:
HALF, `failCount = 1`, `successCount = 0`, `halfDateEnd = 10000`. -/
def cbHalf1 : CB := (fail 0 (mkCB none)).1

/-- The §8 scenario configuration: `minFailures = 2`,
`failureRatioThreshold = 50`, `openTimeout = 5000`, `halfOpenTimeout = 10000`. -/
def demoOpts : Option Options :=
  some { halfTimeout := some 10000, openTimeout := some 5000,
         minFailed := some 2, percentFailed := some 50 }

/-- An OPENED breaker used as a concrete input: open window ends at `t = 10`. -/
def cbOpenW : CB :=
  { options := resolveOptions none, state := State.OPENED, openDateEnd := some 10,
    halfDateEnd := none, failCount := 3, successCount := 4 }

/-- Two `fire` calls, both before `cbOpenW`'s deadline. -/
def callsW : List (FireCall Unit Unit) :=
  [{ req := reqU, nowA := 0, nowH := 0, args := [] },
   { req := reqU, nowA := 5, nowH := 5, args := [] }]

/-- Whenever `fail` produces an OPENED breaker, it has just run `setOpenDate`,
so the open deadline is the handler instant plus `openTimeout`. -/
theorem fail_opened_deadline (now : Int) (cb : CB) :
    (fail now cb).1.state = State.OPENED →
      (fail now cb).1.openDateEnd = some (now + cb.options.openTimeout) := by
  obtain ⟨opts, st, od, hd, fc, sc⟩ := cb
  cases st
  case OPENED => intro _; rfl
  case CLOSED => intro h; exact absurd h (by simp [fail, setHalfDate])
  case HALF =>
    dsimp only [fail]
    split_ifs with h1 h2 h3 <;> intro h <;>
      first
        | rfl
        | exact absurd h (by simp [setHalfDate, reset])

/-! The claim theorems. -/

/-- C1: while the breaker is OPENED and before `openDateEnd`, every `fire`
call — arbitrarily many in sequence — rejects with the
`'The circuit is open'` error, never invokes the guarded operation, and
leaves the entire breaker record (state, deadlines and both counters)
unchanged. -/
theorem fireSeq_open_rejects_all {α ε : Type} (calls : List (FireCall α ε)) (cb : CB) (d : Int)
    (hs : cb.state = State.OPENED) (hd : cb.openDateEnd = some d)
    (ht : ∀ c ∈ calls, c.nowA < d) :
    (fireSeq calls cb).1 = cb ∧
      ∀ s ∈ (fireSeq calls cb).2,
        s.cb' = cb ∧ s.result = FireOutcome.threwOpen "The circuit is open" ∧
          s.invokedWith = none := by
  induction calls with
  | nil => exact ⟨rfl, by simp [fireSeq]⟩
  | cons c rest ih =>
      have hc : fire c.req c.nowA c.nowH cb c.args =
          { cb' := cb, result := FireOutcome.threwOpen "The circuit is open",
            invokedWith := none } :=
        fire_blocked c.req c.nowA c.nowH cb c.args d hs hd (ht c (List.mem_cons_self c rest))
      have hrest := ih (fun x hx => ht x (List.mem_cons_of_mem c hx))
      constructor
      · simp only [fireSeq, hc]
        exact hrest.1
      · intro s hsm
        simp only [fireSeq, hc, List.mem_cons] at hsm
        rcases hsm with rfl | hsm
        · exact ⟨rfl, rfl, rfl⟩
        · exact hrest.2 s hsm

/-- C1 witness: a concrete OPENED breaker with deadline 10, two rejected calls
at `t = 0` and `t = 5`. -/
theorem fireSeq_open_rejects_all_witness :
    (∀ c ∈ callsW, c.nowA < 10) ∧
      ((fireSeq callsW cbOpenW).1 = cbOpenW ∧
        ∀ s ∈ (fireSeq callsW cbOpenW).2,
          s.cb' = cbOpenW ∧ s.result = FireOutcome.threwOpen "The circuit is open" ∧
            s.invokedWith = none) :=
  ⟨by decide, fireSeq_open_rejects_all callsW cbOpenW 10 rfl rfl (by decide)⟩

/-- C2 (code-bug evaluation): in HALF with `now < halfDateEnd`, a success sets
`successCount` to 2 (not 1) and restarts the half-open deadline, because the
`switch` in `success` falls through into the OPENED and the CLOSED case
bodies; with `now >= halfDateEnd` the breaker ends HALF — not CLOSED — with
`successCount = 2` and a fresh deadline, because the fall-through re-enters
HALF right after the reset. -/
theorem success_half_fallthrough_eval :
    (success 5000 cbHalf1).state = State.HALF ∧
      (success 5000 cbHalf1).successCount = 2 ∧
      (success 5000 cbHalf1).halfDateEnd = some 15000 ∧
      (success 10000 cbHalf1).state = State.HALF ∧
      (success 10000 cbHalf1).successCount = 2 ∧
      (success 10000 cbHalf1).failCount = 0 ∧
      (success 10000 cbHalf1).halfDateEnd = some 20000 := by decide

/-- C4 (code-bug evaluation): an admitted call whose operation rejects while
the breaker is HALF, with the incremented `failCount` still below `minFailed`
and the window not yet elapsed, resolves with `undefined`: that path of `fail`
falls off the function without a `return`, dropping the recorded payload.
The first conjunct shows the CLOSED-state pass-through for contrast; the last
shows the failure was still recorded. -/
theorem fire_failure_below_min_resolves_undefined :
    (fire reqBoom 0 0 (mkCB none) []).result
        = FireOutcome.resolvedFail { response := "boom", info := getInfo (mkCB none) } ∧
      (fire reqBoom 5000 5000 cbHalf1 []).result = FireOutcome.resolvedUndefined ∧
      (fire reqBoom 5000 5000 cbHalf1 []).cb'.failCount = 2 := by decide

/-- C6 counterexample: constructing with a fully malformed configuration —
negative timeouts, negative `minFailed`, ratio 250 outside (0, 100] — raises
nothing and yields a breaker instance carrying those values verbatim: the
constructor performs no validation (the embedded `mkCB` is a total function,
exactly as the source constructor has no throwing path). -/
theorem construct_malformed_accepted :
    (mkCB (some { halfTimeout := some (-1), openTimeout := some (-7),
                  minFailed := some (-3), percentFailed := some 250 })).options
        = { halfTimeout := -1, openTimeout := -7, minFailed := -3, percentFailed := 250 } ∧
      (mkCB (some { halfTimeout := some (-1), openTimeout := some (-7),
                    minFailed := some (-3), percentFailed := some 250 })).state
        = State.CLOSED := by decide

/-- C6 (amended): construction never fails fast: every explicitly-passed
non-zero option value — malformed or not — is stored unchanged in the
resulting instance (and a zero is silently replaced by the default, per C10).
-/
theorem construct_total_nonzero_kept (h o m p : Int)
    (hh : h ≠ 0) (ho : o ≠ 0) (hm : m ≠ 0) (hp : p ≠ 0) :
    (mkCB (some { halfTimeout := some h, openTimeout := some o,
                  minFailed := some m, percentFailed := some p })).options
        = { halfTimeout := h, openTimeout := o, minFailed := m, percentFailed := p } := by
  simp [mkCB, resolveOptions, jsOrDefault, hh, ho, hm, hp]

/-- C6 witness: the malformed values `-1`, `-7`, `-3`, `250` survive
construction. -/
theorem construct_total_nonzero_kept_witness :
    ((-1 : Int) ≠ 0) ∧
      (mkCB (some { halfTimeout := some (-1), openTimeout := some (-7),
                    minFailed := some (-3), percentFailed := some 250 })).options
        = { halfTimeout := -1, openTimeout := -7, minFailed := -3, percentFailed := 250 } :=
  ⟨by decide,
    construct_total_nonzero_kept (-1) (-7) (-3) 250
      (by decide) (by decide) (by decide) (by decide)⟩

/-- C7 counterexample: at the boundary instant `now = halfDateEnd` exactly, a
failure in HALF accumulates (`failCount` 1 → 2) and neither resets the
counters nor restarts the half-open timer: `fail` tests
`Date.now() > halfDateEnd` strictly, so the claimed `now >= halfOpenUntil`
behaviour does not hold at equality. -/
theorem fail_half_boundary_accumulates :
    (fail 10000 cbHalf1).1.failCount = 2 ∧
      (fail 10000 cbHalf1).1.halfDateEnd = some 10000 ∧
      (fail 10000 cbHalf1).1.state = State.HALF ∧
      (fail 10000 cbHalf1).2 = FailRet.undef := by decide

/-- C7 (amended): for a HALF breaker receiving a failure strictly after
`halfDateEnd`, the counters are reset, `failCount` becomes 1, the half-open
timer restarts from `now`, the state stays HALF, and the recorded wrapper is
returned; the expired window's failures do not accumulate. -/
theorem fail_half_after_deadline_resets (cb : CB) (now h : Int)
    (hs : cb.state = State.HALF) (hd : cb.halfDateEnd = some h) (hgt : h < now) :
    (fail now cb).1.state = State.HALF ∧ (fail now cb).1.failCount = 1 ∧
      (fail now cb).1.successCount = 0 ∧
      (fail now cb).1.halfDateEnd = some (now + cb.options.halfTimeout) ∧
      (fail now cb).2 = FailRet.wrapper := by
  obtain ⟨opts, st, od, hd', fc, sc⟩ := cb
  cases st
  case OPENED => exact absurd hs (by simp)
  case CLOSED => exact absurd hs (by simp)
  case HALF =>
    cases hd
    dsimp only [fail]
    rw [if_pos (show jsGt now (some h) = true by simp [jsGt]; omega)]
    exact ⟨rfl, rfl, rfl, rfl, rfl⟩

/-- C7 witness: `cbHalf1` (deadline 10000) hit by a failure at `t = 20000`. -/
theorem fail_half_after_deadline_resets_witness :
    ((10000 : Int) < 20000) ∧
      ((fail 20000 cbHalf1).1.state = State.HALF ∧ (fail 20000 cbHalf1).1.failCount = 1 ∧
        (fail 20000 cbHalf1).1.successCount = 0 ∧
        (fail 20000 cbHalf1).1.halfDateEnd = some (20000 + cbHalf1.options.halfTimeout) ∧
        (fail 20000 cbHalf1).2 = FailRet.wrapper) :=
  ⟨by decide,
    fail_half_after_deadline_resets cbHalf1 20000 10000 (by decide) (by decide) (by decide)⟩

/-- C8 counterexample: `fire(a, b)` hands the guarded operation the single
argument `[a, b]` — the rest-parameter array passed whole by
`this.request(args)` — not the two arguments positionally. -/
theorem fire_wraps_args :
    (fire reqU 0 0 (mkCB none) [JsVal.num 0, JsVal.num 1]).invokedWith
        = some [JsVal.arr [JsVal.num 0, JsVal.num 1]] ∧
      (fire reqU 0 0 (mkCB none) [JsVal.num 0, JsVal.num 1]).invokedWith
        ≠ some [JsVal.num 0, JsVal.num 1] := by
  have hw : (fire reqU 0 0 (mkCB none) [JsVal.num 0, JsVal.num 1]).invokedWith
      = some [JsVal.arr [JsVal.num 0, JsVal.num 1]] := rfl
  refine ⟨hw, fun hEq => ?_⟩
  rw [hw] at hEq
  simp at hEq

/-- C8 (amended): every admitted `fire(...args)` call invokes the guarded
operation with exactly one argument: the array of `fire`'s arguments. -/
theorem fire_invokes_with_wrapped_args {α ε : Type} (req : List JsVal → Outcome α ε)
    (nowA nowH : Int) (cb : CB) (args : List JsVal)
    (hadm : ¬(cb.state = State.OPENED ∧ jsLt nowA cb.openDateEnd = true)) :
    (fire req nowA nowH cb args).invokedWith = some [JsVal.arr args] := by
  unfold fire
  rw [if_neg hadm]
  cases hq : req [JsVal.arr args] <;> simp [hq]

/-- C8 witness: a CLOSED breaker forwarding `fire(7)` as `request([7])`. -/
theorem fire_invokes_with_wrapped_args_witness :
    (¬((mkCB none).state = State.OPENED ∧ jsLt 0 (mkCB none).openDateEnd = true)) ∧
      (fire reqU 0 0 (mkCB none) [JsVal.num 7]).invokedWith
        = some [JsVal.arr [JsVal.num 7]] :=
  ⟨by decide, fire_invokes_with_wrapped_args reqU 0 0 (mkCB none) [JsVal.num 7] (by decide)⟩

/-- C10: an option explicitly passed as `0` resolves exactly as if it had been
omitted, field by field, and an all-zero configuration resolves to the
defaults `halfTimeout = 10000`, `openTimeout = 5000`, `minFailed = 15`,
`percentFailed = 50` — the same record an absent options object yields. -/
theorem zero_option_uses_default (h o m p : Option Int) :
    resolveOptions (some { halfTimeout := some 0, openTimeout := o,
                           minFailed := m, percentFailed := p })
        = resolveOptions (some { halfTimeout := none, openTimeout := o,
                                 minFailed := m, percentFailed := p }) ∧
      resolveOptions (some { halfTimeout := h, openTimeout := some 0,
                             minFailed := m, percentFailed := p })
        = resolveOptions (some { halfTimeout := h, openTimeout := none,
                                 minFailed := m, percentFailed := p }) ∧
      resolveOptions (some { halfTimeout := h, openTimeout := o,
                             minFailed := some 0, percentFailed := p })
        = resolveOptions (some { halfTimeout := h, openTimeout := o,
                                 minFailed := none, percentFailed := p }) ∧
      resolveOptions (some { halfTimeout := h, openTimeout := o,
                             minFailed := m, percentFailed := some 0 })
        = resolveOptions (some { halfTimeout := h, openTimeout := o,
                                 minFailed := m, percentFailed := none }) ∧
      resolveOptions (some { halfTimeout := some 0, openTimeout := some 0,
                             minFailed := some 0, percentFailed := some 0 })
        = { halfTimeout := 10000, openTimeout := 5000, minFailed := 15, percentFailed := 50 } ∧
      resolveOptions none
        = { halfTimeout := 10000, openTimeout := 5000, minFailed := 15, percentFailed := 50 } := by
  simp [resolveOptions, jsOrDefault]

/-- A guarded operation that always rejects with the payload `e`. -/
def reqFail {ε : Type} (e : ε) : List JsVal → Outcome Unit ε := fun _ => Outcome.failure e

/-- The breaker reached from `demoOpts` by one failure at `t = 0`: HALF with
`failCount = 1` and `halfDateEnd = 10000`. -/
def demoHalf : CB :=
  { options := { halfTimeout := 10000, openTimeout := 5000, minFailed := 2, percentFailed := 50 },
    state := State.HALF, openDateEnd := none, halfDateEnd := some 10000,
    failCount := 1, successCount := 0 }

/-- The breaker reached from `demoHalf` by a second failure at `t = 0`: OPENED
with `openDateEnd = 5000`. -/
def demoOpen : CB :=
  { options := { halfTimeout := 10000, openTimeout := 5000, minFailed := 2, percentFailed := 50 },
    state := State.OPENED, openDateEnd := some 5000, halfDateEnd := none,
    failCount := 0, successCount := 0 }

/-- The first demo failure evaluates as expected. -/
theorem demoHalf_eval : (fail 0 (mkCB demoOpts)).1 = demoHalf := by decide

/-- The second demo failure trips the breaker: `failCount = 2 ≥ 2` and the
ratio `2 * 100 / (2 + 0) = 100 ≥ 50` open the circuit. -/
theorem demoOpen_eval : (fail 0 demoHalf).1 = demoOpen := by
  norm_num [fail, demoHalf, demoOpen, jsGt, getFailRate, reset, setOpenDate, setHalfDate]

/-- C3: under the §8 scenario configuration (`minFailed = 2`,
`percentFailed = 50`, `openTimeout = 5000`, `halfTimeout = 10000`), two
failures — the second within the half-open window — drive the breaker
CLOSED → HALF (`failCount = 1`) → OPENED (`failCount = 2 ≥ 2`, ratio
`100 ≥ 50`) with the open window ending at `t2 + 5000`, and a third `fire`
before that deadline rejects with the circuit-open error without invoking the
guarded operation. -/
theorem two_failures_open_then_reject {ε : Type} (e : ε) (t1 t2 t3 : Int) (args : List JsVal)
    (h12 : t2 ≤ t1 + 10000) (h23 : t3 < t2 + 5000) :
    (fire (reqFail e) t1 t1 (mkCB demoOpts) args).cb'.state = State.HALF ∧
      (fire (reqFail e) t1 t1 (mkCB demoOpts) args).cb'.failCount = 1 ∧
      (fire (reqFail e) t2 t2 (fire (reqFail e) t1 t1 (mkCB demoOpts) args).cb' args).cb'.state
          = State.OPENED ∧
      (fire (reqFail e) t2 t2
          (fire (reqFail e) t1 t1 (mkCB demoOpts) args).cb' args).cb'.openDateEnd
          = some (t2 + 5000) ∧
      (fire (reqFail e) t3 t3
          (fire (reqFail e) t2 t2 (fire (reqFail e) t1 t1 (mkCB demoOpts) args).cb' args).cb'
          args).result = FireOutcome.threwOpen "The circuit is open" ∧
      (fire (reqFail e) t3 t3
          (fire (reqFail e) t2 t2 (fire (reqFail e) t1 t1 (mkCB demoOpts) args).cb' args).cb'
          args).invokedWith = none := by
  have e1 : (fire (reqFail e) t1 t1 (mkCB demoOpts) args).cb'
      = { options := { halfTimeout := 10000, openTimeout := 5000,
                       minFailed := 2, percentFailed := 50 },
          state := State.HALF, openDateEnd := none, halfDateEnd := some (t1 + 10000),
          failCount := 1, successCount := 0 } := by
    simp [fire, fail, mkCB, demoOpts, resolveOptions, jsOrDefault, jsLt, setHalfDate, reqFail]
  have hng : ¬ ((t1 + 10000 : Int) < t2) := by omega
  have e2 : (fire (reqFail e) t2 t2 (fire (reqFail e) t1 t1 (mkCB demoOpts) args).cb' args).cb'
      = { options := { halfTimeout := 10000, openTimeout := 5000,
                       minFailed := 2, percentFailed := 50 },
          state := State.OPENED, openDateEnd := some (t2 + 5000), halfDateEnd := none,
          failCount := 0, successCount := 0 } := by
    rw [e1]
    norm_num [fire, fail, jsLt, jsGt, hng, setOpenDate, setHalfDate, reset, getFailRate, reqFail]
  have e3 := fire_blocked (reqFail e) t3 t3
      (fire (reqFail e) t2 t2 (fire (reqFail e) t1 t1 (mkCB demoOpts) args).cb' args).cb' args
      (t2 + 5000) (by rw [e2]) (by rw [e2]) h23
  exact ⟨by rw [e1], by rw [e1], by rw [e2], by rw [e2], by rw [e3], by rw [e3]⟩

/-- C3 witness: the scenario at `t1 = t2 = t3 = 0` with a unit failure
payload and no arguments. -/
theorem two_failures_open_then_reject_witness :
    ((0 : Int) ≤ 0 + 10000) ∧ ((0 : Int) < 0 + 5000) ∧
      ((fire (reqFail ()) 0 0 (mkCB demoOpts) []).cb'.state = State.HALF ∧
        (fire (reqFail ()) 0 0 (mkCB demoOpts) []).cb'.failCount = 1 ∧
        (fire (reqFail ()) 0 0 (fire (reqFail ()) 0 0 (mkCB demoOpts) []).cb' []).cb'.state
            = State.OPENED ∧
        (fire (reqFail ()) 0 0
            (fire (reqFail ()) 0 0 (mkCB demoOpts) []).cb' []).cb'.openDateEnd
            = some (0 + 5000) ∧
        (fire (reqFail ()) 0 0
            (fire (reqFail ()) 0 0 (fire (reqFail ()) 0 0 (mkCB demoOpts) []).cb' []).cb'
            []).result = FireOutcome.threwOpen "The circuit is open" ∧
        (fire (reqFail ()) 0 0
            (fire (reqFail ()) 0 0 (fire (reqFail ()) 0 0 (mkCB demoOpts) []).cb' []).cb'
            []).invokedWith = none) :=
  ⟨by decide, by decide,
    two_failures_open_then_reject () 0 0 0 [] (by decide) (by decide)⟩

/-- C5: every reachable OPENED breaker has its open deadline defined — set by
the transition that entered (or refreshed) OPENED to that instant plus
`openTimeout` — and no `fire` whose admission check runs before that deadline
forwards a call to the guarded operation. -/
theorem reachable_open_has_deadline (cb : CB) (hr : Reachable cb)
    (hs : cb.state = State.OPENED) :
    (∃ t, cb.openDateEnd = some (t + cb.options.openTimeout)) ∧
      ∀ {α ε : Type} (req : List JsVal → Outcome α ε) (nowA nowH : Int)
        (args : List JsVal) (d : Int), cb.openDateEnd = some d → nowA < d →
          (fire req nowA nowH cb args).invokedWith = none := by
  constructor
  · revert hs
    induction hr with
    | init opts => intro hs; exact absurd hs (by simp [mkCB])
    | stepSucc now hr ih => intro hs; exact absurd hs (success_state_ne_opened now _)
    | stepFail now hr ih =>
        intro hs
        exact ⟨now, by rw [fail_options]; exact fail_opened_deadline _ _ hs⟩
  · intro α ε req nowA nowH args d hd hlt
    rw [fire_blocked req nowA nowH cb args d hs hd hlt]

/-- C5 witness: `demoOpen` is reachable (two failures under `demoOpts`), is
OPENED with deadline `5000 = 0 + openTimeout`, and blocks a call at `t = 0`.
-/
theorem reachable_open_has_deadline_witness :
    (∃ t, demoOpen.openDateEnd = some (t + demoOpen.options.openTimeout)) ∧
      (fire reqU 0 0 demoOpen []).invokedWith = none :=
  have hreach : Reachable demoOpen := by
    have h : (fail 0 (fail 0 (mkCB demoOpts)).1).1 = demoOpen := by
      rw [demoHalf_eval]; exact demoOpen_eval
    exact h ▸ Reachable.stepFail 0 (Reachable.stepFail 0 (Reachable.init demoOpts))
  ⟨(reachable_open_has_deadline demoOpen hreach rfl).1,
    (reachable_open_has_deadline demoOpen hreach rfl).2 reqU 0 0 [] 5000 rfl (by decide)⟩

/-- C9: `fire`'s promise rejects only in the circuit-open case — any throw
implies the breaker was OPENED with the admission instant before
`openDateEnd` — and an admitted call whose guarded operation fails always
resolves: with the recorded failure wrapper or with `undefined`, never
rejecting with the operation's failure. -/
theorem fire_rejects_only_circuit_open {α ε : Type} (req : List JsVal → Outcome α ε)
    (nowA nowH : Int) (cb : CB) (args : List JsVal) (msg : String) :
    ((fire req nowA nowH cb args).result = FireOutcome.threwOpen msg →
        cb.state = State.OPENED ∧ jsLt nowA cb.openDateEnd = true) ∧
      ∀ e : ε, req [JsVal.arr args] = Outcome.failure e →
        ¬(cb.state = State.OPENED ∧ jsLt nowA cb.openDateEnd = true) →
          (fire req nowA nowH cb args).result
              = FireOutcome.resolvedFail { response := e, info := getInfo cb } ∨
            (fire req nowA nowH cb args).result = FireOutcome.resolvedUndefined := by
  by_cases hguard : cb.state = State.OPENED ∧ jsLt nowA cb.openDateEnd = true
  · exact ⟨fun _ => hguard, fun e _ hn => absurd hguard hn⟩
  · constructor
    · intro hres
      exfalso
      unfold fire at hres
      rw [if_neg hguard] at hres
      cases hq : req [JsVal.arr args] <;> simp only [hq] at hres
      · simp at hres
      · cases h2 : (fail nowH cb).2 <;> simp [h2] at hres
    · intro e hq hn
      unfold fire
      rw [if_neg hguard]
      simp only [hq]
      cases h2 : (fail nowH cb).2 <;> simp [h2]

/-- C9 witness: a CLOSED default breaker with a failing operation — the call
resolves (with the wrapper or `undefined`), and a throw would have required
the OPENED guard. -/
theorem fire_rejects_only_circuit_open_witness :
    (((fire reqBoom 0 0 (mkCB none) []).result
          = FireOutcome.threwOpen "The circuit is open" →
        (mkCB none).state = State.OPENED ∧ jsLt 0 (mkCB none).openDateEnd = true) ∧
      ∀ e : String, reqBoom [JsVal.arr []] = Outcome.failure e →
        ¬((mkCB none).state = State.OPENED ∧ jsLt 0 (mkCB none).openDateEnd = true) →
          (fire reqBoom 0 0 (mkCB none) []).result
              = FireOutcome.resolvedFail { response := e, info := getInfo (mkCB none) } ∨
            (fire reqBoom 0 0 (mkCB none) []).result = FireOutcome.resolvedUndefined) :=
  fire_rejects_only_circuit_open reqBoom 0 0 (mkCB none) [] "The circuit is open"

end CBDemo

